import Mathlib

/-!
Verification development for the clipboard SafeLinks decoder
(src/unSafeLinks.py).

Python strings are modelled as lists of unicode scalar values (`Str`), byte
strings as lists of naturals below 256.  The functions of `urllib.parse` that
`decode_safelink` calls are translated from the CPython 3.11 standard library
(`urllib/parse.py`), the library the script imports; the Windows clipboard
layer is modelled as a deterministic function of an oracle recording the
success of each OS call, together with the trace of OS events it performs.
-/

/-- Python `str`, modelled as a list of unicode scalar values. -/
abbrev Str := List Char

/-- View of a Lean string literal as the `Str` model. -/
def pyStr (s : String) : Str := s.toList

/-- The Python exceptions that the modelled code can raise. -/
inductive PyExc where
  | clipboardError (msg : String)
  | memoryAllocationError (msg : String)
  | valueError (msg : String)
  | osError
  deriving DecidableEq, Repr

deriving instance DecidableEq for Except

-- Message constants of the script's `ClipboardError` class.
namespace ClipboardError

def EMPTY_FAILED : String := "Could not empty clipboard"

def SET_FAILED : String := "Could not set clipboard data"

def LOCKED : String := "Could not open clipboard - possibly locked by another process"

end ClipboardError

-- Message constants of the script's `MemoryAllocationError` class.
namespace MemoryAllocationError

def ALLOC_FAILED : String := "Could not allocate global memory"

def LOCK_FAILED : String := "Could not lock global memory"

end MemoryAllocationError

/-- Python `s.split(sep)` for a one-element separator: the groups between
occurrences of `sep`, empty groups included (`"" -> [""]`). -/
def pySplit {α : Type} [DecidableEq α] (sep : α) : List α → List (List α)
  | [] => [[]]
  | c :: cs =>
    if c = sep then [] :: pySplit sep cs
    else
      match pySplit sep cs with
      | [] => [[c]]
      | g :: gs => (c :: g) :: gs

/-- Python `s.split(sep, 1)` when `sep` occurs: the part before the first
occurrence of `sep` and the remainder after it; `none` when `sep` is absent
(in Python, a one-element result list). -/
def splitFirst {α : Type} [DecidableEq α] (sep : α) : List α → Option (List α × List α)
  | [] => none
  | c :: cs =>
    if c = sep then some ([], cs)
    else (splitFirst sep cs).map (fun p => (c :: p.1, p.2))

/-- Python `s.replace(a, b)` for one-character arguments. -/
def pyReplace (a b : Char) (s : Str) : Str :=
  s.map (fun c => if c = a then b else c)

/-- UTF-8 encoding of one character (`str.encode("utf-8")`, per character). -/
def utf8EncodeChar (c : Char) : List Nat :=
  let n := c.toNat
  if n < 0x80 then [n]
  else if n < 0x800 then [0xC0 + n / 0x40, 0x80 + n % 0x40]
  else if n < 0x10000 then [0xE0 + n / 0x1000, 0x80 + n / 0x40 % 0x40, 0x80 + n % 0x40]
  else [0xF0 + n / 0x40000, 0x80 + n / 0x1000 % 0x40, 0x80 + n / 0x40 % 0x40, 0x80 + n % 0x40]

/-- Python `str.encode("utf-8")`. -/
def utf8Encode (s : Str) : List Nat := s.flatMap utf8EncodeChar

/-- Is `b` a UTF-8 continuation byte (0x80..0xBF)? -/
def isCont (b : Nat) : Bool := decide (0x80 ≤ b ∧ b < 0xC0)

/-- The Unicode replacement character U+FFFD. -/
def replChar : Char := Char.ofNat 0xFFFD

/-- UTF-8 decoding with `errors="replace"`, as CPython's `bytes.decode` does
it (one replacement character per maximal subpart of an ill-formed
subsequence, the WHATWG decoding algorithm).  `fuel` only serves termination:
every step consumes at least one byte, so any `fuel ≥ bs.length` computes the
full decoding. -/
def utf8DecodeReplaceF : Nat → List Nat → Str
  | _, [] => []
  | 0, _ :: _ => []
  | fuel + 1, b :: bs =>
    if b < 0x80 then Char.ofNat b :: utf8DecodeReplaceF fuel bs
    else if 0xC2 ≤ b ∧ b ≤ 0xDF then
      match bs with
      | b1 :: bs1 =>
        if isCont b1 then
          Char.ofNat ((b - 0xC0) * 0x40 + (b1 - 0x80)) :: utf8DecodeReplaceF fuel bs1
        else replChar :: utf8DecodeReplaceF fuel bs
      | [] => [replChar]
    else if 0xE0 ≤ b ∧ b ≤ 0xEF then
      match bs with
      | b1 :: bs1 =>
        if (if b = 0xE0 then 0xA0 else 0x80) ≤ b1 ∧ b1 ≤ (if b = 0xED then 0x9F else 0xBF) then
          match bs1 with
          | b2 :: bs2 =>
            if isCont b2 then
              Char.ofNat ((b - 0xE0) * 0x1000 + (b1 - 0x80) * 0x40 + (b2 - 0x80)) ::
                utf8DecodeReplaceF fuel bs2
            else replChar :: utf8DecodeReplaceF fuel bs1
          | [] => [replChar]
        else replChar :: utf8DecodeReplaceF fuel bs
      | [] => [replChar]
    else if 0xF0 ≤ b ∧ b ≤ 0xF4 then
      match bs with
      | b1 :: bs1 =>
        if (if b = 0xF0 then 0x90 else 0x80) ≤ b1 ∧ b1 ≤ (if b = 0xF4 then 0x8F else 0xBF) then
          match bs1 with
          | b2 :: bs2 =>
            if isCont b2 then
              match bs2 with
              | b3 :: bs3 =>
                if isCont b3 then
                  Char.ofNat
                      ((b - 0xF0) * 0x40000 + (b1 - 0x80) * 0x1000 + (b2 - 0x80) * 0x40 +
                        (b3 - 0x80)) ::
                    utf8DecodeReplaceF fuel bs3
                else replChar :: utf8DecodeReplaceF fuel bs2
              | [] => [replChar]
            else replChar :: utf8DecodeReplaceF fuel bs1
          | [] => [replChar]
        else replChar :: utf8DecodeReplaceF fuel bs
      | [] => [replChar]
    else replChar :: utf8DecodeReplaceF fuel bs

/-- UTF-8 decoding with replacement of ill-formed subsequences. -/
def utf8DecodeReplace (bs : List Nat) : Str := utf8DecodeReplaceF bs.length bs

/-- Value of an ASCII hex-digit byte; `none` for non-hex bytes.  This renders
the `_hextobyte` lookup of CPython's `unquote_to_bytes`, whose keys are
exactly the two-hex-digit byte strings in either case. -/
def hexDigitVal (b : Nat) : Option Nat :=
  if 0x30 ≤ b ∧ b ≤ 0x39 then some (b - 0x30)
  else if 0x41 ≤ b ∧ b ≤ 0x46 then some (b - 0x37)
  else if 0x61 ≤ b ∧ b ≤ 0x66 then some (b - 0x57)
  else none

/-- One `%`-separated chunk of `unquote_to_bytes`: a chunk opening with two
hex digits becomes the denoted byte followed by the remaining bytes;
otherwise the consumed `%` is restored literally. -/
def percentItem (item : List Nat) : List Nat :=
  match item with
  | h1 :: h2 :: tail =>
    match hexDigitVal h1, hexDigitVal h2 with
    | some v1, some v2 => (v1 * 16 + v2) :: tail
    | _, _ => 0x25 :: item
  | _ => 0x25 :: item

/-- CPython `urllib.parse.unquote_to_bytes` on a string argument: encode as
UTF-8, split on the percent byte, and rewrite each chunk after a `%` with
`percentItem`.  The empty-input and no-percent early returns of the source
coincide with the general path and are covered by it. -/
def unquote_to_bytes (s : Str) : List Nat :=
  match pySplit 0x25 (utf8Encode s) with
  | [] => []
  | b0 :: rest => b0 ++ rest.flatMap percentItem

/-- Is `c` an ASCII character? -/
def isAsciiCh (c : Char) : Bool := decide (c.toNat < 0x80)

/-- Body of CPython `urllib.parse.unquote` for the default utf-8/replace
arguments: the `_asciire` regex splits the string into maximal ASCII runs;
each ASCII run is percent-decoded to bytes and those bytes decoded as UTF-8
with replacement; the characters between the runs are kept as they are.
`fuel` only serves termination: every step consumes at least one character,
so any `fuel ≥ s.length` computes the full result. -/
def unquoteRunsF : Nat → Str → Str
  | 0, s => s
  | _, [] => []
  | fuel + 1, c :: cs =>
    if isAsciiCh c then
      utf8DecodeReplace (unquote_to_bytes ((c :: cs).takeWhile isAsciiCh)) ++
        unquoteRunsF fuel ((c :: cs).dropWhile isAsciiCh)
    else
      (c :: cs).takeWhile (fun x => !isAsciiCh x) ++
        unquoteRunsF fuel ((c :: cs).dropWhile (fun x => !isAsciiCh x))

/-- CPython `urllib.parse.unquote` with default arguments (utf-8, replace);
a string without `%` is returned unchanged. -/
def unquote (s : Str) : Str :=
  if s.contains '%' then unquoteRunsF s.length s else s

/-- Treatment of one `&`-chunk by the loop body of `parse_qsl` (with its
default arguments `keep_blank_values=False`, `strict_parsing=False`):
`none` when the chunk is skipped — empty chunk, chunk without `=`, or empty
raw value — otherwise the name-value pair, each part decoded by replacing
`+` with space and percent-decoding. -/
def qslPair (name_value : Str) : Option (Str × Str) :=
  if name_value = [] then none
  else
    match splitFirst '=' name_value with
    | none => none
    | some (n, v) =>
      if v = [] then none
      else some (unquote (pyReplace '+' ' ' n), unquote (pyReplace '+' ' ' v))

/-- CPython `urllib.parse.parse_qsl` with default arguments (utf-8/replace,
`separator="&"`): split the query on `&` (an empty query yields no chunks)
and collect the pairs the loop body keeps. -/
def parse_qsl (qs : Str) : List (Str × Str) :=
  (if qs = [] then [] else pySplit '&' qs).filterMap qslPair

/-- Python `parse_qs(qs).get(key, [None])[0]`: `parse_qs` groups the `parse_qsl`
pairs by name in encounter order, so the head of the list stored under `key`
is the value of the first pair whose decoded name is `key`. -/
def qsGetFirst (key : Str) (qs : Str) : Option Str :=
  ((parse_qsl qs).find? (fun p => decide (p.1 = key))).map (fun p => p.2)

/-- CPython `urllib.parse.scheme_chars`. -/
def scheme_chars : Str :=
  pyStr "abcdefghijklmnopqrstuvwxyzABCDEFGHIJKLMNOPQRSTUVWXYZ0123456789+-."

/-- The five components returned by `urlsplit`. -/
structure SplitResult where
  scheme : Str
  netloc : Str
  path : Str
  query : Str
  fragment : Str
  deriving DecidableEq, Repr

/-- Is `c` an ASCII letter (`c.isascii() and c.isalpha()` on ASCII input)? -/
def isAsciiAlpha (c : Char) : Bool :=
  decide (('a' ≤ c ∧ c ≤ 'z') ∨ ('A' ≤ c ∧ c ≤ 'Z'))

/-- CPython `_splitnetloc(url, 2)` applied to `url[2:]`: the netloc is the
longest run containing none of `/`, `?`, `#`; the rest starts at the first
such delimiter. -/
def splitnetloc (u : Str) : Str × Str :=
  (u.takeWhile (fun c => decide (c ≠ '/' ∧ c ≠ '?' ∧ c ≠ '#')),
   u.dropWhile (fun c => decide (c ≠ '/' ∧ c ≠ '?' ∧ c ≠ '#')))

/-- CPython 3.11 `urllib.parse.urlsplit` with default arguments: remove the
unsafe bytes tab, CR, LF; split a scheme when the part before the first `:`
is non-empty, starts with an ASCII letter and consists of `scheme_chars`;
split the netloc after a leading `//`, raising `ValueError("Invalid IPv6
URL")` when the netloc contains `[` without `]` or `]` without `[`; then
split fragment and query.  CPython's `_checknetloc` returns without effect
whenever the netloc is empty or ASCII (its `isascii()` fast path); for a
non-ASCII netloc it can instead raise `ValueError("netloc ... contains
invalid characters under NFKC normalization")`, a branch that depends on the
Unicode NFKC tables and is not included in this character-level model — the
model passes it unconditionally.  Statements about which exceptions the
parser and its callers can raise are therefore made only for inputs whose
netloc (`parsedNetloc`) is ASCII, the domain on which this model and the
library agree. -/
def urlsplitE (url0 : Str) : Except PyExc SplitResult :=
  let url1 := url0.filter (fun c => decide (c ≠ '\t' ∧ c ≠ '\r' ∧ c ≠ '\n'))
  let schemeUrl :=
    match splitFirst ':' url1 with
    | some (before, after) =>
      if !before.isEmpty && isAsciiAlpha (before.headD ' ') &&
          before.all (fun c => scheme_chars.contains c) then
        (before.map Char.toLower, after)
      else ([], url1)
    | none => ([], url1)
  let scheme := schemeUrl.1
  let url2 := schemeUrl.2
  let netlocRest : Except PyExc (Str × Str) :=
    if url2.take 2 = pyStr "//" then
      let nr := splitnetloc (url2.drop 2)
      if (nr.1.contains '[' && !nr.1.contains ']') ||
          (nr.1.contains ']' && !nr.1.contains '[') then
        Except.error (PyExc.valueError "Invalid IPv6 URL")
      else Except.ok nr
    else Except.ok ([], url2)
  match netlocRest with
  | Except.error e => Except.error e
  | Except.ok (netloc, url3) =>
    let frag := match splitFirst '#' url3 with | some p => p | none => (url3, [])
    let pq := match splitFirst '?' frag.1 with | some p => p | none => (frag.1, [])
    Except.ok ⟨scheme, netloc, pq.1, pq.2, frag.2⟩

/-- CPython `urllib.parse.urlparse`: wraps `urlsplit`; the extra splitting of
`;params` out of the path never changes the `query` component, which is the
only component `decode_safelink` reads. -/
def urlparseE (url : Str) : Except PyExc SplitResult := urlsplitE url

/-- The script's `decode_safelink` (src/unSafeLinks.py, lines 123-150): parse the URL,
look up the first `url` query parameter, and return it percent-decoded once
more; `none` when the parameter is missing or its value is falsy.  The
`ValueError` that `urlparse` can raise propagates. -/
def decode_safelink (safelink_url : Str) : Except PyExc (Option Str) :=
  match urlparseE safelink_url with
  | Except.error e => Except.error e
  | Except.ok parsed_url =>
    match qsGetFirst (pyStr "url") parsed_url.query with
    | some original_url =>
      if original_url ≠ [] then Except.ok (some (unquote original_url))
      else Except.ok none
    | none => Except.ok none

-- ## Clipboard access layer (get_clipboard_text / set_clipboard_text)

/-- Outcome oracle for the OS calls of one `set_clipboard_text` run:
`openResults k` is the result of its `(k+1)`-th `OpenClipboard` call, the
remaining fields the results of the other calls. -/
structure WriteOracle where
  openResults : Nat → Bool
  emptyOk : Bool
  allocOk : Bool
  lockOk : Bool
  setOk : Bool

/-- OS events of one `set_clipboard_text` run. -/
inductive WEvent where
  | openCall (ok : Bool)
  | sleepMs (ms : Nat)
  | emptyCall (ok : Bool)
  | allocCall (size : Nat) (ok : Bool)
  | lockCall (ok : Bool)
  | memmoveCall (size : Nat)
  | unlockCall
  | setCall (ok : Bool)
  | freeCall
  | closeCall
  deriving DecidableEq, Repr

/-- UTF-16LE encoding of one character, as in `str.encode("utf-16le")`. -/
def utf16leEncodeChar (c : Char) : List Nat :=
  let n := c.toNat
  if n < 0x10000 then [n % 0x100, n / 0x100]
  else
    let m := n - 0x10000
    let hi := 0xD800 + m / 0x400
    let lo := 0xDC00 + m % 0x400
    [hi % 0x100, hi / 0x100, lo % 0x100, lo / 0x100]

/-- Python `s.encode("utf-16le")`. -/
def utf16leEncode (s : Str) : List Nat := s.flatMap utf16leEncodeChar

/-- The `for _ in range(5)` retry loop of `set_clipboard_text` (lines
212-217): call `OpenClipboard` up to `fuel` times, sleeping 100 ms after
each failed call (the sleep is the loop body after the `break` check, so it
also follows the last failed call); `k` counts the calls already made. -/
def openLoop (o : WriteOracle) (k : Nat) : Nat → Bool × List WEvent
  | 0 => (false, [])
  | fuel + 1 =>
    if o.openResults k then (true, [WEvent.openCall true])
    else
      let r := openLoop o (k + 1) fuel
      (r.1, WEvent.openCall false :: WEvent.sleepMs 100 :: r.2)

/-- Lines 229-246 of `set_clipboard_text`: the body of the inner `try`.
Besides result and events it returns the final truthiness of the
`h_global_mem` variable, which the inner `finally` examines: the variable is
cleared (`h_global_mem = None`) only after `SetClipboardData` succeeds — in
particular it is still set when `GlobalLock` fails, although that branch has
already called `GlobalFree` itself. -/
def setInner (o : WriteOracle) (size : Nat) : Except PyExc Unit × Bool × List WEvent :=
  if !o.lockOk then
    (Except.error (PyExc.memoryAllocationError MemoryAllocationError.LOCK_FAILED), true,
      [WEvent.lockCall false, WEvent.freeCall])
  else if !o.setOk then
    (Except.error (PyExc.clipboardError ClipboardError.SET_FAILED), true,
      [WEvent.lockCall true, WEvent.memmoveCall size, WEvent.unlockCall, WEvent.setCall false])
  else
    (Except.ok (), false,
      [WEvent.lockCall true, WEvent.memmoveCall size, WEvent.unlockCall, WEvent.setCall true])

/-- Lines 220-249 of `set_clipboard_text`: the body of the outer `try`.
Empty the clipboard, allocate the global memory, then run the inner `try`
whose `finally` calls `GlobalFree` whenever `h_global_mem` is still set. -/
def setBody (o : WriteOracle) (size : Nat) : Except PyExc Unit × List WEvent :=
  if !o.emptyOk then
    (Except.error (PyExc.clipboardError ClipboardError.EMPTY_FAILED), [WEvent.emptyCall false])
  else if !o.allocOk then
    (Except.error (PyExc.memoryAllocationError MemoryAllocationError.ALLOC_FAILED),
      [WEvent.emptyCall true, WEvent.allocCall size false])
  else
    let r := setInner o size
    let ev := if r.2.1 then r.2.2 ++ [WEvent.freeCall] else r.2.2
    (r.1, WEvent.emptyCall true :: WEvent.allocCall size true :: ev)

/-- The script's `set_clipboard_text` (lines 181-251): encode the text as UTF-16LE with an
explicit trailing null, open the clipboard with up to 5 attempts — raising
`ClipboardError(LOCKED)` before the `try` block, hence without a close, when
all five fail — then run the body under `try/finally CloseClipboard()`. -/
def set_clipboard_text (o : WriteOracle) (text : Str) : Except PyExc Unit × List WEvent :=
  let text_size := (utf16leEncode (text ++ [Char.ofNat 0])).length
  let opened := openLoop o 0 5
  if opened.1 then
    let r := setBody o text_size
    (r.1, opened.2 ++ r.2 ++ [WEvent.closeCall])
  else
    (Except.error (PyExc.clipboardError ClipboardError.LOCKED), opened.2)

/-- Outcome oracle for the OS calls of one `get_clipboard_text` run.
`readFaults` stands for an OS access violation inside `ctypes.wstring_at`
(an `OSError`), the failure the outer `except` clause guards against;
`content` is the text obtained when every step succeeds. -/
structure ReadOracle where
  openOk : Bool
  dataHandleValid : Bool
  lockOk : Bool
  readFaults : Bool
  content : Str

/-- OS events of one `get_clipboard_text` run. -/
inductive REvent where
  | openCall (ok : Bool)
  | getDataCall (ok : Bool)
  | lockCall (ok : Bool)
  | wstringCall (faulted : Bool)
  | unlockCall
  | closeCall
  deriving DecidableEq, Repr

/-- Lines 162-174 of `get_clipboard_text`: the code inside the outer `try`.
`text` starts as the empty string and is assigned only by `wstring_at`; both
nested `finally` blocks (`GlobalUnlock`, `CloseClipboard`) also run on the
exception path. -/
def getBody (o : ReadOracle) : Except PyExc Str × List REvent :=
  if !o.openOk then (Except.ok [], [REvent.openCall false])
  else
    let inner : Except PyExc Str × List REvent :=
      if !o.dataHandleValid then (Except.ok [], [REvent.getDataCall false])
      else if !o.lockOk then (Except.ok [], [REvent.getDataCall true, REvent.lockCall false])
      else if o.readFaults then
        (Except.error PyExc.osError,
          [REvent.getDataCall true, REvent.lockCall true, REvent.wstringCall true,
            REvent.unlockCall])
      else
        (Except.ok o.content,
          [REvent.getDataCall true, REvent.lockCall true, REvent.wstringCall false,
            REvent.unlockCall])
    (inner.1, REvent.openCall true :: inner.2 ++ [REvent.closeCall])

/-- The script's `get_clipboard_text` (lines 153-178): run the body under
`except (OSError, ValueError): pass` and return `text`, which is still the
empty string whenever the body raised — the only assignment to `text` is the
`wstring_at` call, which is also the only raising operation. -/
def get_clipboard_text (o : ReadOracle) : Str × List REvent :=
  match getBody o with
  | (Except.ok t, ev) => (t, ev)
  | (Except.error _, ev) => ([], ev)

/-- Number of `CloseClipboard` calls in a read trace. -/
def closeCountR (ev : List REvent) : Nat :=
  (ev.filter (fun e => e = REvent.closeCall)).length

/-- Number of `CloseClipboard` calls in a write trace. -/
def closeCountW (ev : List WEvent) : Nat :=
  (ev.filter (fun e => e = WEvent.closeCall)).length

/-- Number of `GlobalFree` calls in a write trace. -/
def freeCount (ev : List WEvent) : Nat :=
  (ev.filter (fun e => e = WEvent.freeCall)).length

/-- Number of `OpenClipboard` calls in a write trace. -/
def openCountW (ev : List WEvent) : Nat :=
  (ev.filter (fun e => match e with | WEvent.openCall _ => true | _ => false)).length

/-- Every failed `OpenClipboard` event is immediately followed by a 100 ms
sleep. -/
def backoffOk : List WEvent → Bool
  | [] => true
  | WEvent.openCall false :: rest =>
    match rest with
    | WEvent.sleepMs 100 :: _ => backoffOk rest
    | _ => false
  | _ :: rest => backoffOk rest

-- ## Watch loop (run_service)

/-- The three recognized SafeLinks hosts of `run_service` (lines 270-274). -/
def safeLinksHosts : List Str :=
  [pyStr "https://gbr01.safelinks.protection.outlook.com/",
   pyStr "https://eur01.safelinks.protection.outlook.com/",
   pyStr "https://nam02.safelinks.protection.outlook.com/"]

/-- Python `current_content.startswith((...))` over the three recognized hosts. -/
def startsWithSafeLinksHost (s : Str) : Bool :=
  safeLinksHosts.any (fun p => p.isPrefixOf s)

/-- State of the watch loop: the clipboard text and `last_content`. -/
structure ServiceState where
  clipboard : Str
  lastContent : Str
  deriving DecidableEq, Repr

/-- Observable actions of one watch-loop iteration. -/
inductive TickEvent where
  | readClipboard
  | decodeCall
  | writeClipboard (text : Str)
  deriving DecidableEq, Repr

/-- One iteration of the `while True` loop of `run_service` (lines 264-285),
with the OS clipboard idealized: `get_clipboard_text` yields the clipboard
text and `set_clipboard_text` replaces it and succeeds (the claims about the
loop address its control logic, not clipboard contention).  An exception
raised by `decode_safelink` propagates out of the loop unguarded, as in the
source.  The branch structure mirrors lines 269-282: on changed content with
a recognized host, decode; on a truthy decode write the result back and
record it as `last_content`, otherwise record the raw content
(`last_content = decoded_url or current_content`); on non-matching or
unchanged content, no action. -/
def tick (s : ServiceState) : Except PyExc ServiceState × List TickEvent :=
  let current_content := s.clipboard
  if current_content ≠ s.lastContent ∧ startsWithSafeLinksHost current_content = true then
    match decode_safelink current_content with
    | Except.error e => (Except.error e, [TickEvent.readClipboard, TickEvent.decodeCall])
    | Except.ok decoded_url =>
      match decoded_url with
      | some d =>
        if d ≠ [] then
          (Except.ok ⟨d, d⟩,
            [TickEvent.readClipboard, TickEvent.decodeCall, TickEvent.writeClipboard d])
        else
          (Except.ok ⟨current_content, current_content⟩,
            [TickEvent.readClipboard, TickEvent.decodeCall])
      | none =>
        (Except.ok ⟨current_content, current_content⟩,
          [TickEvent.readClipboard, TickEvent.decodeCall])
  else (Except.ok s, [TickEvent.readClipboard])

/-- Iterate the watch-loop tick `n` times. -/
def tickIter : Nat → ServiceState → Except PyExc ServiceState
  | 0, s => Except.ok s
  | n + 1, s =>
    match (tick s).1 with
    | Except.ok t => tickIter n t
    | Except.error e => Except.error e

-- ## Constructs used by the claims' statements

/-- The unreserved bytes of CPython `urllib.parse.quote` (`_ALWAYS_SAFE`):
ASCII letters, digits and `_.-~`. -/
def alwaysSafeByte (b : Nat) : Bool :=
  decide ((0x41 ≤ b ∧ b ≤ 0x5A) ∨ (0x61 ≤ b ∧ b ≤ 0x7A) ∨ (0x30 ≤ b ∧ b ≤ 0x39) ∨
    b = 0x5F ∨ b = 0x2E ∨ b = 0x2D ∨ b = 0x7E)

/-- Upper-case hex digit of `v < 16`, as in the `%XX` escapes of `quote`. -/
def hexUpper (v : Nat) : Char :=
  if v < 10 then Char.ofNat (0x30 + v) else Char.ofNat (0x37 + v)

/-- CPython `urllib.parse.quote` with the default `safe="/"`: encode as UTF-8
and map every byte that is neither always-safe nor `/` to a `%XX` escape. -/
def quote (s : Str) : Str :=
  (utf8Encode s).flatMap (fun b =>
    if alwaysSafeByte b || b == 0x2F then [Char.ofNat b]
    else ['%', hexUpper (b / 16), hexUpper (b % 16)])

/-- Modelled from the spec's testable properties: `makeSafeLink` builds
`"https://eur01.safelinks.protection.outlook.com/?url=" + percentEncode(X)`,
reading percent-encode as CPython `urllib.parse.quote` (the encoder of the
library the script uses). -/
def makeSafeLink (x : Str) : Str :=
  pyStr "https://eur01.safelinks.protection.outlook.com/?url=" ++ quote x

/-- Did the `OpenClipboard` retry loop of `set_clipboard_text` succeed within
its five attempts? -/
def clipboardOpened (o : WriteOracle) : Bool := (openLoop o 0 5).1

/-- The raw-value selector corresponding to `qslPair` for the name `url`:
the chunk's raw (still percent-encoded) value when the chunk is kept and its
decoded name is `url`. -/
def rawUrlOfPair (name_value : Str) : Option Str :=
  if name_value = [] then none
  else
    match splitFirst '=' name_value with
    | none => none
    | some (n, v) =>
      if v = [] then none
      else if unquote (pyReplace '+' ' ' n) = pyStr "url" then some v else none

/-- The raw (still percent-encoded) value of the `url` parameter that
`parse_qs` lists first: scanning the `&`-chunks of the query in order with
the keeps and skips of `parse_qsl`, the value of the first chunk having an
`=`, a non-empty raw value and decoded name `url`. -/
def rawFirstUrlValue (qs : Str) : Option Str :=
  (if qs = [] then [] else pySplit '&' qs).findSome? rawUrlOfPair

/-- A write oracle whose every OS call succeeds. -/
def writeOracleAllOk : WriteOracle :=
  { openResults := fun _ => true, emptyOk := true, allocOk := true, lockOk := true, setOk := true }

/-- A write oracle where only `GlobalLock` fails (the simulated lock
failure). -/
def writeOracleLockFail : WriteOracle := { writeOracleAllOk with lockOk := false }

/-- A write oracle where only `SetClipboardData` fails (the simulated set
failure). -/
def writeOracleSetFail : WriteOracle := { writeOracleAllOk with setOk := false }

-- ## Helper lemmas

theorem utf8EncodeChar_ne_nil (c : Char) : utf8EncodeChar c ≠ [] := by
  unfold utf8EncodeChar
  dsimp only
  split <;> try simp
  split <;> try simp
  split <;> simp

theorem utf8Encode_ne_nil {s : Str} (h : s ≠ []) : utf8Encode s ≠ [] := by
  cases s with
  | nil => exact absurd rfl h
  | cons c cs =>
    simp [utf8Encode, List.flatMap_cons, List.append_eq_nil, utf8EncodeChar_ne_nil]

theorem pySplit_ne_nil {α : Type} [DecidableEq α] (sep : α) (l : List α) :
    pySplit sep l ≠ [] := by
  induction l with
  | nil => simp [pySplit]
  | cons c cs ih =>
    unfold pySplit
    split
    · simp
    · split <;> simp

theorem pySplit_cons {α : Type} [DecidableEq α] (sep c : α) (cs : List α) :
    pySplit sep (c :: cs) =
      if c = sep then [] :: pySplit sep cs
      else
        match pySplit sep cs with
        | [] => [[c]]
        | g :: gs => (c :: g) :: gs := rfl

theorem percentItem_ne_nil (item : List Nat) : percentItem item ≠ [] := by
  unfold percentItem
  split
  · split <;> simp
  · simp

theorem unquote_to_bytes_ne_nil {s : Str} (h : s ≠ []) : unquote_to_bytes s ≠ [] := by
  obtain ⟨b, bs, hbs⟩ := List.exists_cons_of_ne_nil (utf8Encode_ne_nil h)
  unfold unquote_to_bytes
  rw [hbs, pySplit_cons]
  by_cases h25 : b = 0x25
  · rw [if_pos h25]
    cases hr : pySplit 0x25 bs with
    | nil => exact absurd hr (pySplit_ne_nil _ _)
    | cons i r =>
      simp [List.flatMap_cons, List.append_eq_nil, percentItem_ne_nil]
  · rw [if_neg h25]
    cases hr : pySplit 0x25 bs with
    | nil => simp
    | cons g gs => simp

theorem utf8DecodeReplaceF_ne_nil (fuel b : Nat) (bs : List Nat) :
    utf8DecodeReplaceF (fuel + 1) (b :: bs) ≠ [] := by
  unfold utf8DecodeReplaceF
  repeat' split
  all_goals simp

theorem utf8DecodeReplace_ne_nil {bs : List Nat} (h : bs ≠ []) :
    utf8DecodeReplace bs ≠ [] := by
  obtain ⟨b, bs2, rfl⟩ := List.exists_cons_of_ne_nil h
  show utf8DecodeReplaceF (b :: bs2).length (b :: bs2) ≠ []
  rw [List.length_cons]
  exact utf8DecodeReplaceF_ne_nil _ _ _

theorem unquoteRunsF_ne_nil (fuel : Nat) (c : Char) (cs : Str) :
    unquoteRunsF (fuel + 1) (c :: cs) ≠ [] := by
  unfold unquoteRunsF
  split
  case isTrue hA =>
    intro hcontra
    rcases List.append_eq_nil.mp hcontra with ⟨ha, _⟩
    have ht : (c :: cs).takeWhile isAsciiCh = c :: cs.takeWhile isAsciiCh :=
      List.takeWhile_cons_of_pos hA
    exact utf8DecodeReplace_ne_nil (unquote_to_bytes_ne_nil (by simp [ht])) ha
  case isFalse hA =>
    intro hcontra
    rcases List.append_eq_nil.mp hcontra with ⟨ha, _⟩
    rw [List.takeWhile_cons_of_pos (by simp [hA])] at ha
    exact absurd ha (by simp)

theorem unquote_ne_nil {s : Str} (h : s ≠ []) : unquote s ≠ [] := by
  unfold unquote
  split
  · obtain ⟨c, cs, rfl⟩ := List.exists_cons_of_ne_nil h
    rw [List.length_cons]
    exact unquoteRunsF_ne_nil _ _ _
  · exact h

theorem qslPair_vs_rawUrl (nv : Str) :
    (∃ v, rawUrlOfPair nv = some v ∧
        qslPair nv = some (pyStr "url", unquote (pyReplace '+' ' ' v))) ∨
      (rawUrlOfPair nv = none ∧
        (qslPair nv = none ∨ ∃ p, qslPair nv = some p ∧ p.1 ≠ pyStr "url")) := by
  unfold qslPair rawUrlOfPair
  by_cases h0 : nv = []
  · right
    simp [h0]
  · rw [if_neg h0, if_neg h0]
    cases h1 : splitFirst '=' nv with
    | none =>
      right
      simp
    | some p =>
      obtain ⟨n, v⟩ := p
      dsimp only
      by_cases hv : v = []
      · right
        simp [hv]
      · rw [if_neg hv, if_neg hv]
        by_cases hn : unquote (pyReplace '+' ' ' n) = pyStr "url"
        · left
          exact ⟨v, by rw [if_pos hn], by rw [hn]⟩
        · right
          refine ⟨by rw [if_neg hn], Or.inr ⟨_, rfl, hn⟩⟩

theorem qsGetFirst_url_eq_raw (qs : Str) :
    qsGetFirst (pyStr "url") qs =
      (rawFirstUrlValue qs).map (fun v => unquote (pyReplace '+' ' ' v)) := by
  unfold qsGetFirst parse_qsl rawFirstUrlValue
  generalize (if qs = [] then [] else pySplit '&' qs) = l
  induction l with
  | nil => rfl
  | cons nv rest ih =>
    rw [List.findSome?_cons]
    rcases qslPair_vs_rawUrl nv with ⟨v, hraw, hpair⟩ | ⟨hraw, hpair⟩
    · rw [hraw, List.filterMap_cons_some hpair]
      simp [List.find?]
    · rw [hraw]
      rcases hpair with hnone | ⟨p, hsome, hne⟩
      · rw [List.filterMap_cons_none hnone]
        exact ih
      · rw [List.filterMap_cons_some hsome, List.find?_cons_of_neg _ (by simp [hne])]
        exact ih

theorem rawUrlOfPair_ne_nil {nv v : Str} (h : rawUrlOfPair nv = some v) : v ≠ [] := by
  unfold rawUrlOfPair at h
  split at h
  · exact absurd h (by simp)
  · split at h
    · exact absurd h (by simp)
    · split at h
      · exact absurd h (by simp)
      · split at h
        · next hv _ =>
          obtain rfl := Option.some.inj h
          exact hv
        · exact absurd h (by simp)

theorem rawFirstUrlValue_ne_nil {qs w : Str} (h : rawFirstUrlValue qs = some w) : w ≠ [] := by
  unfold rawFirstUrlValue at h
  generalize (if qs = [] then [] else pySplit '&' qs) = l at h
  induction l with
  | nil => exact absurd h (by simp)
  | cons nv rest ih =>
    rw [List.findSome?_cons] at h
    split at h
    · next b heq =>
      obtain rfl := Option.some.inj h
      exact rawUrlOfPair_ne_nil heq
    · exact ih h

theorem forall_lt_five {P : Nat → Prop} : (∀ k, k < 5 → P k) ↔ P 0 ∧ P 1 ∧ P 2 ∧ P 3 ∧ P 4 := by
  constructor
  · intro h
    exact ⟨h 0 (by omega), h 1 (by omega), h 2 (by omega), h 3 (by omega), h 4 (by omega)⟩
  · rintro ⟨h0, h1, h2, h3, h4⟩ k hk
    interval_cases k <;> assumption

theorem exists_lt_five {P : Nat → Prop} : (∃ k, k < 5 ∧ P k) ↔ P 0 ∨ P 1 ∨ P 2 ∨ P 3 ∨ P 4 := by
  constructor
  · rintro ⟨k, hk, hp⟩
    interval_cases k <;> tauto
  · rintro (h | h | h | h | h)
    exacts [⟨0, by omega, h⟩, ⟨1, by omega, h⟩, ⟨2, by omega, h⟩, ⟨3, by omega, h⟩,
      ⟨4, by omega, h⟩]

-- ## Claim theorems

/-- C1: in `set_clipboard_text` the claim's set-failure and success branches
hold (exactly one free after a failed `SetClipboardData`, zero frees after a
successful one), but its lock-failure branch fails on the code: when
`GlobalLock` fails the allocation is freed twice, not once — once by the
explicit `GlobalFree` call before the raise and once more by the inner
`finally`, because `h_global_mem` is not cleared on that path.  The runs
shown open the clipboard at the first attempt and differ only in the failing
call. -/
theorem set_clipboard_free_counts :
    (set_clipboard_text writeOracleLockFail (pyStr "hi")).1 =
        Except.error (PyExc.memoryAllocationError MemoryAllocationError.LOCK_FAILED) ∧
      freeCount (set_clipboard_text writeOracleLockFail (pyStr "hi")).2 = 2 ∧
      (set_clipboard_text writeOracleSetFail (pyStr "hi")).1 =
        Except.error (PyExc.clipboardError ClipboardError.SET_FAILED) ∧
      freeCount (set_clipboard_text writeOracleSetFail (pyStr "hi")).2 = 1 ∧
      (set_clipboard_text writeOracleAllOk (pyStr "hi")).1 = Except.ok () ∧
      freeCount (set_clipboard_text writeOracleAllOk (pyStr "hi")).2 = 0 := by
  decide

/-- C3 counterexample: for the already-percent-encoded sample
`X = "https://example.com/a%20b"` the round trip does not return `X`:
`decode_safelink` percent-decodes twice, so the `%20` inside `X` collapses
to a space. -/
theorem roundtrip_fails_on_preencoded :
    decode_safelink (makeSafeLink (pyStr "https://example.com/a%20b")) =
        Except.ok (some (pyStr "https://example.com/a b")) ∧
      pyStr "https://example.com/a b" ≠ pyStr "https://example.com/a%20b" := by
  decide

/-- C3 amended: the round trip `decode(makeSafeLink(X)) = X` holds for the
two sample inputs without pre-encoded characters,
`X = "https://example.com"` and `X = "https://example.com/path?a=1&b=2"`;
for a string containing already-percent-encoded characters the extra
decoding breaks it. -/
theorem roundtrip_holds_without_preencoding :
    decode_safelink (makeSafeLink (pyStr "https://example.com")) =
        Except.ok (some (pyStr "https://example.com")) ∧
      decode_safelink (makeSafeLink (pyStr "https://example.com/path?a=1&b=2")) =
        Except.ok (some (pyStr "https://example.com/path?a=1&b=2")) := by
  decide

/-- C4 counterexample: for `"https://x/?url=%2541"` the raw value of the
`url` parameter is `%2541`, whose percent-decoding applied once is `%41`
(that is, `unquote "%2541"`); `decode_safelink` instead returns `A`, the
result of decoding twice. -/
theorem decode_safelink_not_single_decoding :
    decode_safelink (pyStr "https://x/?url=%2541") = Except.ok (some (pyStr "A")) ∧
      pyStr "A" ≠ unquote (pyStr "%2541") := by
  decide

/-- C4 amended: for every well-formed URL whose query string carries a `url`
parameter with a non-empty raw value (first occurrence by decoded name,
among the chunks `parse_qsl` keeps), `decode_safelink` returns the
percent-decoding of that raw value applied twice — once by the query-string
parsing, which first replaces `+` by space, and once more by the explicit
`unquote` call — rather than once. -/
theorem decode_safelink_decodes_twice (s : Str) (p : SplitResult)
    (hp : urlparseE s = Except.ok p) (w : Str)
    (hw : rawFirstUrlValue p.query = some w) :
    decode_safelink s = Except.ok (some (unquote (unquote (pyReplace '+' ' ' w)))) := by
  have hq := qsGetFirst_url_eq_raw p.query
  rw [hw] at hq
  have hne : unquote (pyReplace '+' ' ' w) ≠ [] := by
    apply unquote_ne_nil
    have hwne := rawFirstUrlValue_ne_nil hw
    simp [pyReplace, hwne]
  unfold decode_safelink
  rw [hp]
  dsimp only
  rw [hq]
  simp [hne]

/-- Witness for C4: the amended theorem applied at the URL
`"https://host/?url=a%2541b&x=2"`, whose first `url` chunk has the raw value
`a%2541b`. -/
theorem decode_safelink_decodes_twice_witness :
    decode_safelink (pyStr "https://host/?url=a%2541b&x=2") =
      Except.ok (some (unquote (unquote (pyReplace '+' ' ' (pyStr "a%2541b"))))) :=
  decode_safelink_decodes_twice (pyStr "https://host/?url=a%2541b&x=2")
    ⟨pyStr "https", pyStr "host", pyStr "/", pyStr "url=a%2541b&x=2", []⟩
    (by decide) (pyStr "a%2541b") (by decide)

/-- C7: `get_clipboard_text` never raises and degrades every failure to the
empty string: its result is the clipboard text when open, data handle, lock
and the `wstring_at` read all succeed, and the empty string in every other
case — open failure, missing Unicode-text format, lock failure, or an OS
access violation during the read (caught by the `except` clause). -/
theorem get_clipboard_text_soft (o : ReadOracle) :
    (get_clipboard_text o).1 =
      (if o.openOk && o.dataHandleValid && o.lockOk && !o.readFaults then o.content
       else []) := by
  cases ho : o.openOk <;> cases hd : o.dataHandleValid <;> cases hl : o.lockOk <;>
    cases hr : o.readFaults <;> simp_all [get_clipboard_text, getBody]

theorem closeCountW_openLoop (o : WriteOracle) (fuel k : Nat) :
    closeCountW (openLoop o k fuel).2 = 0 := by
  induction fuel generalizing k with
  | zero => simp [openLoop, closeCountW]
  | succ n ih =>
    unfold openLoop
    split
    · simp [closeCountW]
    · dsimp only
      have := ih (k + 1)
      simp_all [closeCountW, List.filter_cons]

theorem closeCountW_setBody (o : WriteOracle) (sz : Nat) :
    closeCountW (setBody o sz).2 = 0 := by
  cases hemp : o.emptyOk <;> cases hall : o.allocOk <;> cases hlk : o.lockOk <;>
    cases hst : o.setOk <;> simp_all [setBody, setInner, closeCountW]

theorem closeCountW_append (a b : List WEvent) :
    closeCountW (a ++ b) = closeCountW a + closeCountW b := by
  simp [closeCountW, List.filter_append]

set_option maxHeartbeats 2000000 in
/-- C5: the write-side protocol of `set_clipboard_text`: at most five
`OpenClipboard` calls, a 100 ms sleep right after each failed one, and
`ClipboardError(LOCKED)` exactly when all five fail; once open,
`ClipboardError(EMPTY_FAILED)` exactly when emptying fails,
`MemoryAllocationError(ALLOC_FAILED)` exactly when allocation fails,
`MemoryAllocationError(LOCK_FAILED)` exactly when locking fails, and
`ClipboardError(SET_FAILED)` exactly when the clipboard-set call fails. -/
theorem set_clipboard_error_protocol (o : WriteOracle) (t : Str) :
    openCountW (set_clipboard_text o t).2 ≤ 5 ∧
    backoffOk (set_clipboard_text o t).2 = true ∧
    ((set_clipboard_text o t).1 = Except.error (PyExc.clipboardError ClipboardError.LOCKED) ↔
      ∀ k < 5, o.openResults k = false) ∧
    ((set_clipboard_text o t).1 =
        Except.error (PyExc.clipboardError ClipboardError.EMPTY_FAILED) ↔
      (∃ k < 5, o.openResults k = true) ∧ o.emptyOk = false) ∧
    ((set_clipboard_text o t).1 =
        Except.error (PyExc.memoryAllocationError MemoryAllocationError.ALLOC_FAILED) ↔
      (∃ k < 5, o.openResults k = true) ∧ o.emptyOk = true ∧ o.allocOk = false) ∧
    ((set_clipboard_text o t).1 =
        Except.error (PyExc.memoryAllocationError MemoryAllocationError.LOCK_FAILED) ↔
      (∃ k < 5, o.openResults k = true) ∧ o.emptyOk = true ∧ o.allocOk = true ∧
        o.lockOk = false) ∧
    ((set_clipboard_text o t).1 = Except.error (PyExc.clipboardError ClipboardError.SET_FAILED) ↔
      (∃ k < 5, o.openResults k = true) ∧ o.emptyOk = true ∧ o.allocOk = true ∧
        o.lockOk = true ∧ o.setOk = false) := by
  cases h0 : o.openResults 0 <;> cases h1 : o.openResults 1 <;> cases h2 : o.openResults 2 <;>
    cases h3 : o.openResults 3 <;> cases h4 : o.openResults 4 <;>
    cases hemp : o.emptyOk <;> cases hall : o.allocOk <;> cases hlk : o.lockOk <;>
    cases hst : o.setOk <;>
    simp_all [set_clipboard_text, setBody, setInner, openLoop, openCountW, backoffOk,
      forall_lt_five, exists_lt_five, ClipboardError.LOCKED, ClipboardError.EMPTY_FAILED,
      ClipboardError.SET_FAILED, MemoryAllocationError.ALLOC_FAILED,
      MemoryAllocationError.LOCK_FAILED]

/-- C6: whenever the clipboard open succeeds, `CloseClipboard` is called
exactly once, in both `get_clipboard_text` (single open attempt) and
`set_clipboard_text` (open within five attempts), on every exit path —
normal return, early return and exception propagation alike; and zero times
when the open never succeeded. -/
theorem clipboard_closed_once (o : ReadOracle) (o2 : WriteOracle) (t : Str) :
    closeCountR (get_clipboard_text o).2 = (if o.openOk then 1 else 0) ∧
      closeCountW (set_clipboard_text o2 t).2 = (if clipboardOpened o2 then 1 else 0) := by
  constructor
  · cases ho : o.openOk <;> cases hd : o.dataHandleValid <;> cases hl : o.lockOk <;>
      cases hr : o.readFaults <;> simp_all [get_clipboard_text, getBody, closeCountR]
  · unfold set_clipboard_text clipboardOpened
    dsimp only
    cases hop : (openLoop o2 0 5).1
    · simp only [hop, Bool.false_eq_true, if_false]
      exact closeCountW_openLoop o2 5 0
    · simp only [hop, if_true]
      rw [closeCountW_append, closeCountW_append, closeCountW_openLoop, closeCountW_setBody]
      rfl

/-- C8: on a watch-loop tick whose clipboard content differs from
`last_content` and starts with a recognized SafeLinks host, the decoder is
invoked; a truthy decode is written back to the clipboard and recorded as
`last_content`, otherwise the raw content is recorded as `last_content` and
the clipboard is left as it is. -/
theorem watch_tick_decodes (s : ServiceState) (r : Option Str)
    (hch : s.clipboard ≠ s.lastContent)
    (hpre : startsWithSafeLinksHost s.clipboard = true)
    (hdec : decode_safelink s.clipboard = Except.ok r) :
    tick s =
      (match r with
       | some d =>
         if d ≠ [] then
           (Except.ok ⟨d, d⟩,
             [TickEvent.readClipboard, TickEvent.decodeCall, TickEvent.writeClipboard d])
         else
           (Except.ok ⟨s.clipboard, s.clipboard⟩,
             [TickEvent.readClipboard, TickEvent.decodeCall])
       | none =>
         (Except.ok ⟨s.clipboard, s.clipboard⟩,
           [TickEvent.readClipboard, TickEvent.decodeCall])) := by
  unfold tick
  dsimp only
  rw [if_pos (And.intro hch hpre)]
  simp only [hdec]
  cases r <;> rfl

/-- Witness for C8: the spec's watch-loop example — from `last_content = ""`
and an `eur01` SafeLink on the clipboard, one tick decodes it and replaces
the clipboard with `https://example.com`. -/
theorem watch_tick_decodes_witness :
    tick
        ⟨pyStr
            "https://eur01.safelinks.protection.outlook.com/?url=https%3A%2F%2Fexample.com",
          []⟩ =
      (Except.ok ⟨pyStr "https://example.com", pyStr "https://example.com"⟩,
        [TickEvent.readClipboard, TickEvent.decodeCall,
          TickEvent.writeClipboard (pyStr "https://example.com")]) :=
  watch_tick_decodes
    ⟨pyStr "https://eur01.safelinks.protection.outlook.com/?url=https%3A%2F%2Fexample.com", []⟩
    (some (pyStr "https://example.com")) (by decide) (by decide) (by decide)

/-- C9: on a watch-loop tick whose clipboard content changed but does not
start with a recognized SafeLinks host, nothing happens: no decode, no
write, clipboard and `last_content` both unchanged. -/
theorem watch_tick_ignores (s : ServiceState)
    (_hch : s.clipboard ≠ s.lastContent)
    (hpre : startsWithSafeLinksHost s.clipboard = false) :
    tick s = (Except.ok s, [TickEvent.readClipboard]) := by
  unfold tick
  dsimp only
  rw [if_neg (by simp [hpre])]

/-- Witness for C9: the spec's example — a changed clipboard holding
`https://notasafelink.com/foo` is left untouched by the tick. -/
theorem watch_tick_ignores_witness :
    tick ⟨pyStr "https://notasafelink.com/foo", []⟩ =
      (Except.ok ⟨pyStr "https://notasafelink.com/foo", []⟩, [TickEvent.readClipboard]) :=
  watch_tick_ignores ⟨pyStr "https://notasafelink.com/foo", []⟩ (by decide) (by decide)

/-- C10: after a tick that writes a decoded URL, `last_content` equals the
clipboard content just written, so — absent external clipboard changes —
every later tick performs no decode and no write (its only event is the
read), even when the decoded URL itself starts with a recognized SafeLinks
host: the loop never re-processes its own output. -/
theorem watch_loop_self_stabilizing (s : ServiceState) (d : Str)
    (hch : s.clipboard ≠ s.lastContent)
    (hpre : startsWithSafeLinksHost s.clipboard = true)
    (hdec : decode_safelink s.clipboard = Except.ok (some d)) (hd : d ≠ []) :
    (tick s).1 = Except.ok (ServiceState.mk d d) ∧
      tick (ServiceState.mk d d) =
        (Except.ok (ServiceState.mk d d), [TickEvent.readClipboard]) ∧
      ∀ n, tickIter n (ServiceState.mk d d) = Except.ok (ServiceState.mk d d) := by
  have h2 : tick (ServiceState.mk d d) =
      (Except.ok (ServiceState.mk d d), [TickEvent.readClipboard]) := by
    unfold tick
    dsimp only
    rw [if_neg (by simp)]
  refine ⟨?_, h2, ?_⟩
  · unfold tick
    dsimp only
    rw [if_pos (And.intro hch hpre)]
    simp only [hdec]
    simp [hd]
  · intro n
    induction n with
    | zero => rfl
    | succ m ih =>
      unfold tickIter
      rw [h2]
      exact ih

/-- Witness for C10: after decoding the spec's `eur01` example the state is
the fixed point `(https://example.com, https://example.com)`, and three more
ticks leave it unchanged. -/
theorem watch_loop_self_stabilizing_witness :
    (tick
          ⟨pyStr
              "https://eur01.safelinks.protection.outlook.com/?url=https%3A%2F%2Fexample.com",
            pyStr "x"⟩).1 =
        Except.ok (ServiceState.mk (pyStr "https://example.com") (pyStr "https://example.com")) ∧
      tickIter 3
          (ServiceState.mk (pyStr "https://example.com") (pyStr "https://example.com")) =
        Except.ok (ServiceState.mk (pyStr "https://example.com") (pyStr "https://example.com")) :=
  ⟨(watch_loop_self_stabilizing
      ⟨pyStr "https://eur01.safelinks.protection.outlook.com/?url=https%3A%2F%2Fexample.com",
        pyStr "x"⟩
      (pyStr "https://example.com") (by decide) (by decide) (by decide) (by decide)).1,
    (watch_loop_self_stabilizing
      ⟨pyStr "https://eur01.safelinks.protection.outlook.com/?url=https%3A%2F%2Fexample.com",
        pyStr "x"⟩
      (pyStr "https://example.com") (by decide) (by decide) (by decide) (by decide)).2.2 3⟩
